import Mathlib

/-!
Shallow embedding of the PlantCamera capture/session scheduling engine
(`plantcamera/services/timelapse.py`, `plantcamera/services/media.py`,
`plantcamera/infra/ffmpeg.py`).

The filesystem-backed Frame Store and Artifact Store are modelled as lists of
file names; wall-clock instants are modelled as integers (seconds), and
`strftime` rendering of an instant is modelled as its decimal rendering (no
claim inspects the digit layout).  External collaborators (camera tool,
ffmpeg process, config-file write) are modelled by explicit outcome
parameters, so every operation of the engine is a pure function of the state
plus those outcomes.
-/

namespace PlantCamera

/-- Character class `[A-Za-z0-9._-]` of the allow-list regexes
`_VALID_IMAGE` (timelapse.py line 19) and `_VALID_VIDEO` (media.py line 6). -/
def validNameChar (c : Char) : Bool :=
  ('A' ≤ c && c ≤ 'Z') || ('a' ≤ c && c ≤ 'z') || ('0' ≤ c && c ≤ '9') ||
    c = '.' || c = '_' || c = '-'

/-- Python `re.match` of the anchored pattern `^[A-Za-z0-9._-]+\.<ext>$`
against `s`.  Python's `$` also matches just before a single trailing
newline, so that newline is stripped first; the rest of the string must be
one or more allow-list characters ending in the literal extension (the
extension's own characters are in the class, so the pattern is equivalent to:
longer than the extension, all characters in the class, ends with the
extension). -/
def pyMatchAllowList (ext : String) (s : String) : Bool :=
  let cs := s.data
  let core := if cs.getLast? = some '\n' then cs.dropLast else cs
  decide (ext.data.length < core.length) && core.all validNameChar &&
    ext.data.isSuffixOf core

/-- Python's substring test `needle in s`. -/
def containsSub (needle s : String) : Bool :=
  decide (List.IsInfix needle.data s.data)

/-- `TimelapseService.validate_image_name` (timelapse.py lines 401-403):
the name must match `_VALID_IMAGE` and contain none of `".."`, `"/"`,
`"\"`; returns `true` when no `ValueError` is raised. -/
def validateImageName (s : String) : Bool :=
  pyMatchAllowList ".jpg" s && !(containsSub ".." s) && !(containsSub "/" s) &&
    !(containsSub "\\" s)

/-- `MediaService.validate_video_name` (media.py lines 14-16). -/
def validateVideoName (s : String) : Bool :=
  pyMatchAllowList ".mp4" s && !(containsSub ".." s) && !(containsSub "/" s) &&
    !(containsSub "\\" s)

/-- The two distinct exceptions of the path accessors: `ValueError`
("invalid filename") and `FileNotFoundError name`. -/
inductive NameError where
  | invalidName
  | notFound (name : String)
deriving DecidableEq, Repr

/-- `TimelapseService.get_image_path` (timelapse.py lines 408-413): validate
the name, then require the file to exist in the frames directory (modelled
by membership in `frames`); on success the resolved path is the frames
directory joined with the name. -/
def getImagePath (frames : List String) (name : String) :
    Except NameError String :=
  if validateImageName name then
    if name ∈ frames then .ok ("images/" ++ name)
    else .error (.notFound name)
  else .error .invalidName

/-- `MediaService.get_video_path` (media.py lines 21-26). -/
def getVideoPath (videos : List String) (name : String) :
    Except NameError String :=
  if validateVideoName name then
    if name ∈ videos then .ok ("videos/" ++ name)
    else .error (.notFound name)
  else .error .invalidName

/-- Round-half-to-even on an exact rational, the rounding rule of Python's
`round` builtin (used by `round(x, 2)` after scaling by 100). -/
def roundHalfEven (q : ℚ) : ℤ :=
  let f := ⌊q⌋
  let r := q - (f : ℚ)
  if r < 1 / 2 then f
  else if 1 / 2 < r then f + 1
  else if f % 2 = 0 then f else f + 1

/-- Python `round(q, 2)`: round half-even at two decimal places (modelled on
exact rationals rather than binary doubles). -/
def round2 (q : ℚ) : ℚ :=
  (roundHalfEven (q * 100) : ℚ) / 100

/-- Python `f"{q:.0%}"`: render a ratio as a whole-number percentage. -/
def pctFmt (q : ℚ) : String :=
  toString (roundHalfEven (q * 100)) ++ "%"

/-- Stands for `datetime.strftime(TIMESTAMP_FORMAT)` applied to the abstract
clock value; the claims never inspect the digit layout, so the decimal
rendering of the instant is used. -/
def fmtTS (t : Int) : String := toString t

/-- The flat persisted configuration record written by
`_runtime_config_dict` (timelapse.py lines 108-114). -/
structure ConfigRecord where
  captureIntervalSeconds : Int
  rotationDegrees : Int
  sessionImageCount : Int
  blackDetectionPercentage : ℚ
deriving DecidableEq, Repr

/-- The mutable state of `TimelapseService` that the verified operations
touch.  `frames` and `videos` model the file names present in the frames and
videos directories; `savedConfig` models the contents of the persisted
`config.json` (None when absent); `logs` models the messages pushed through
`_log` (the wall-clock prefix `_log` prepends to each ring entry is
elided). -/
structure TLState where
  frames : List String
  videos : List String
  sessionStart : Int
  nextCaptureDue : Int
  captureIntervalSeconds : Int
  rotationDegrees : Int
  sessionImageCount : Int
  blackDetectionThreshold : ℚ
  lastCaptureTimestamp : Option Int
  lastCaptureError : Option String
  lastEncodeError : Option String
  savedConfig : Option ConfigRecord
  logs : List String
deriving DecidableEq, Repr

/-- `_normalize_rotation_degrees` (timelapse.py lines 97-100): raises
`ValueError` unless the value is one of 0, 90, 180, 270. -/
def normalizeRotationDegrees (value : Int) : Except String Int :=
  if value = 0 ∨ value = 90 ∨ value = 180 ∨ value = 270 then .ok value
  else .error "Rotation must be one of: 0, 90, 180, 270."

/-- `_normalize_black_percentage` (timelapse.py lines 102-106): raises
`ValueError` unless the percentage lies in [0, 100]. -/
def normalizeBlackPercentage (value : ℚ) : Except String ℚ :=
  if value < 0 ∨ 100 < value then
    .error "Black detection percentage must be between 0 and 100."
  else .ok value

/-- `_apply_runtime_config` (timelapse.py lines 135-152): coerce interval and
session count to at least 1, validate rotation then black percentage (both
before any field assignment, so a validation failure mutates nothing), then
set all four fields and recompute `next_capture_due = now + interval`. -/
def applyRuntimeConfig (st : TLState) (now : Int)
    (captureIntervalSeconds rotationDegrees sessionImageCount : Int)
    (blackDetectionPercentage : ℚ) : Except String TLState :=
  let captureSeconds := max 1 captureIntervalSeconds
  let sessionCount := max 1 sessionImageCount
  match normalizeRotationDegrees rotationDegrees with
  | .error e => .error e
  | .ok rotation =>
    match normalizeBlackPercentage blackDetectionPercentage with
    | .error e => .error e
    | .ok blackPercentage =>
      .ok { st with
        captureIntervalSeconds := captureSeconds
        nextCaptureDue := now + captureSeconds
        rotationDegrees := rotation
        sessionImageCount := sessionCount
        blackDetectionThreshold := blackPercentage / 100 }

/-- `_runtime_config_dict` (timelapse.py lines 108-114): the persisted record
stores the interval in whole seconds, the rotation, the session count, and
`round(threshold * 100.0, 2)`. -/
def runtimeConfigDict (st : TLState) : ConfigRecord :=
  { captureIntervalSeconds := st.captureIntervalSeconds
    rotationDegrees := st.rotationDegrees
    sessionImageCount := st.sessionImageCount
    blackDetectionPercentage := round2 (st.blackDetectionThreshold * 100) }

/-- `update_runtime_config` (timelapse.py lines 154-177): apply the new
configuration, then persist it.  A `ValueError` from validation is returned
as `(False, str(error))` with nothing mutated (validation happens before any
assignment and before the save).  A non-ValueError exception raised while
persisting (`saveError = some e`, e.g. an OSError from the file write) is
returned as `(False, "Failed to save config: ...")` — but by then the
in-memory fields have already been applied and are not rolled back. -/
def updateRuntimeConfig (st : TLState) (now : Int)
    (captureIntervalSeconds rotationDegrees sessionImageCount : Int)
    (blackDetectionPercentage : ℚ) (saveError : Option String) :
    TLState × Bool × String :=
  match applyRuntimeConfig st now captureIntervalSeconds rotationDegrees
      sessionImageCount blackDetectionPercentage with
  | .error e => (st, false, e)
  | .ok st1 =>
    match saveError with
    | some e => (st1, false, "Failed to save config: " ++ e)
    | none =>
      ({ st1 with
          savedConfig := some (runtimeConfigDict st1)
          logs := st1.logs ++ ["Runtime configuration updated"] },
        true, "Configuration saved.")

/-- `_load_runtime_config` (timelapse.py lines 116-129): when a persisted
record exists, apply its four fields through `_apply_runtime_config`; a
validation failure is logged and ignored (the constructor defaults are
retained). -/
def loadRuntimeConfig (st : TLState) (now : Int) : TLState :=
  match st.savedConfig with
  | none => st
  | some cfg =>
    match applyRuntimeConfig st now cfg.captureIntervalSeconds
        cfg.rotationDegrees cfg.sessionImageCount
        cfg.blackDetectionPercentage with
    | .ok st1 =>
      { st1 with logs := st1.logs ++ ["Loaded runtime configuration"] }
    | .error e =>
      { st with
          logs := st.logs ++ ["Failed to load runtime configuration: " ++ e] }

/-- `TimelapseService.__init__` (timelapse.py lines 31-89) restricted to the
state this development models: empty stores, constructor-normalized
configuration fields, `session_start = now`,
`next_capture_due = now + interval`, then `_load_runtime_config` applied to
the given persisted record. -/
def initService (now : Int)
    (captureIntervalSeconds sessionImageCount rotationDegrees : Int)
    (blackDetectionPercentage : ℚ) (persisted : Option ConfigRecord) :
    Except String TLState :=
  match normalizeRotationDegrees rotationDegrees with
  | .error e => .error e
  | .ok rotation =>
    match normalizeBlackPercentage blackDetectionPercentage with
    | .error e => .error e
    | .ok blackPercentage =>
      let st0 : TLState :=
        { frames := []
          videos := []
          sessionStart := now
          nextCaptureDue := now + max 1 captureIntervalSeconds
          captureIntervalSeconds := max 1 captureIntervalSeconds
          rotationDegrees := rotation
          sessionImageCount := max 1 sessionImageCount
          blackDetectionThreshold := blackPercentage / 100
          lastCaptureTimestamp := none
          lastCaptureError := none
          lastEncodeError := none
          savedConfig := persisted
          logs := [] }
      .ok (loadRuntimeConfig st0 now)

/-- The four externally visible configuration values of a service state:
interval seconds, rotation degrees, session image count, black-detection
percentage (the threshold rescaled to percent). -/
def configValues (st : TLState) : Int × Int × Int × ℚ :=
  (st.captureIntervalSeconds, st.rotationDegrees, st.sessionImageCount,
    st.blackDetectionThreshold * 100)

/-- Lexicographic comparison of character lists by code point, the order
Python uses to compare `str` values. -/
def charListLe : List Char → List Char → Bool
  | [], _ => true
  | _ :: _, [] => false
  | a :: as, b :: bs =>
    if a < b then true else if b < a then false else charListLe as bs

/-- Python's `s1 <= s2` on file names. -/
def strLe (a b : String) : Bool := charListLe a.data b.data

/-- Python's `s.startswith(p)`. -/
def strStartsWith (p s : String) : Bool := p.data.isPrefixOf s.data

/-- Python's `s.endswith(suf)`. -/
def strEndsWith (suf s : String) : Bool := suf.data.isSuffixOf s.data

/-- Insert a name into a list sorted by the string order. -/
def insertSorted (a : String) : List String → List String
  | [] => [a]
  | b :: t => if strLe a b then a :: b :: t else b :: insertSorted a t

/-- Python's `sorted` on file names (insertion sort over the string order). -/
def sortByName (l : List String) : List String :=
  l.foldr insertSorted []

/-- Whether a file name is matched by the glob `image_*.jpg` used by
`_collected_images` (timelapse.py line 266): for names of this shape the
pattern is equivalent to carrying the prefix and the suffix. -/
def isFrameGlobMatch (n : String) : Bool :=
  strStartsWith "image_" n && strEndsWith ".jpg" n

/-- `_collected_images` (timelapse.py lines 265-266): the sorted list of
frame files matching `image_*.jpg`. -/
def collectedImages (frames : List String) : List String :=
  sortByName (frames.filter isFrameGlobMatch)

/-- Whether a file name is matched by the glob `*.mp4` used by
`trigger_merge_videos` (timelapse.py line 344); the glob module skips names
with a leading dot. -/
def isMp4GlobMatch (n : String) : Bool :=
  strEndsWith ".mp4" n && !(strStartsWith "." n)

/-- `pathlib.PurePath.stem`: the name without its last suffix; the suffix is
the segment from the last dot, present only when that dot is neither the
first nor the last character. -/
def pathStem (s : String) : String :=
  let cs := s.data
  match cs.reverse.findIdx? (fun c => c = '.') with
  | none => s
  | some j =>
    let i := cs.length - 1 - j
    if 0 < i ∧ i < cs.length - 1 then ⟨cs.take i⟩ else s

/-- Outcome of one invocation of the external encoder collaborator
(`encode_timelapse` in ffmpeg.py): the ffmpeg binary may be missing
(`FileNotFoundError` escapes `subprocess.run` uncaught), the process may
fail (a `CalledProcessError` that `encode_timelapse` rewraps into a
`RuntimeError`), or the process exits successfully after writing an output
of the given size in bytes. -/
inductive EncodeOutcome where
  | toolMissing (message : String)
  | procFailure (stderr : String)
  | produced (sizeBytes : Nat)
deriving DecidableEq, Repr

/-- `encode_timelapse` (ffmpeg.py lines 162-279) reduced to its
control-flow skeleton: a missing tool propagates as is; a process failure is
rewrapped into a `RuntimeError` (the command and stdout echoes of the
original message, and the retry-with-downscale branch — which only refines
which process-failure message is raised — are elided); a successful process
run whose output is smaller than 256 bytes deletes the output and raises
`RuntimeError` (ffmpeg.py lines 270-277) even though the tool exited 0;
otherwise the temporary output is renamed onto the target. -/
def encodeTimelapse (outcome : EncodeOutcome) : Except String Unit :=
  match outcome with
  | .toolMissing m => .error m
  | .procFailure stderr => .error ("ffmpeg failed. STDERR: " ++ stderr)
  | .produced size =>
    if size < 256 then
      .error ("Generated video file is too small (" ++ toString size ++
        " bytes). Conversion likely failed; check ffmpeg output and captured frames.")
    else .ok ()

/-- `_resolve_codec` (timelapse.py lines 284-293): a failing
`list_encoders` call yields the empty set; the configured codec is kept when
listed; otherwise `"mpeg4"` is used when listed; otherwise the configured
codec is returned unchanged. -/
def resolveCodec (videoCodec : String) (listResult : Except String (List String)) : String :=
  let encoders := match listResult with
    | .ok e => e
    | .error _ => []
  if encoders.contains videoCodec then videoCodec
  else if encoders.contains "mpeg4" then "mpeg4"
  else videoCodec

/-- `_encode_session` (timelapse.py lines 295-325).  `images` is the
snapshot of the Frame Store taken at entry; `capturedDuringEncode` are the
frame files that land in the store while the external encoder call is
outstanding (captures run under a different lock and may interleave).  On
any encoder exception the message is recorded as the last encode error,
logged, and returned with `False`; no frame is deleted.  On success every
snapshotted frame is unlinked (not a fresh re-scan), the new artifact
appears in the videos directory, `session_start` advances to the encode's
end time and the last encode error is cleared. -/
def encodeSession (st : TLState) (now : Int) (outcome : EncodeOutcome)
    (capturedDuringEncode : List String) : TLState × Bool × String :=
  let images := collectedImages st.frames
  if images = [] then
    (st, false, "No collected images available for conversion.")
  else
    let outputName :=
      "video_" ++ fmtTS st.sessionStart ++ "_" ++ fmtTS now ++ ".mp4"
    let storeDuring := st.frames ++ capturedDuringEncode
    match encodeTimelapse outcome with
    | .error msg =>
      ({ st with
          frames := storeDuring
          lastEncodeError := some msg
          logs := st.logs ++ ["Encode failed: " ++ msg] }, false, msg)
    | .ok _ =>
      ({ st with
          frames := storeDuring.filter (fun f => !(images.contains f))
          videos := st.videos ++ [outputName]
          sessionStart := now
          lastEncodeError := none },
        true,
        "Converted " ++ toString images.length ++ " images into " ++
          outputName ++ ".")

/-- One iteration of the body of `_session_loop` (timelapse.py lines
268-282): when the Frame Store holds at least `session_image_count` files,
run `_encode_session` (logging its message on failure); otherwise do
nothing.  The second component counts how many encode invocations the
iteration fired. -/
def sessionLoopIter (st : TLState) (now : Int) (outcome : EncodeOutcome)
    (capturedDuringEncode : List String) : TLState × Nat :=
  if ((collectedImages st.frames).length : Int) ≥ st.sessionImageCount then
    match encodeSession st now outcome capturedDuringEncode with
    | (st1, ok, msg) =>
      (if ok then st1
       else { st1 with logs := st1.logs ++ ["Session encode error: " ++ msg] },
        1)
  else (st, 0)

/-- Result of the post-processing stage of `_capture_frame` (rotation,
normalization, black-ratio estimation): either it completes and yields the
estimator's result (`none` when the analysis failed and returned unknown),
or some step raised. -/
inductive PostResult where
  | ok (blackRatio : Option ℚ)
  | failed (message : String)
deriving DecidableEq, Repr

/-- The "Discarded image ..." log message of `_capture_frame`
(timelapse.py lines 217-220). -/
def discardMsg (frameName : String) (ratio threshold : ℚ) : String :=
  "Discarded image " ++ frameName ++ " because black ratio is " ++
    pctFmt ratio ++ " (threshold: " ++ pctFmt threshold ++ ")"

/-- `_capture_frame` (timelapse.py lines 204-232).  `photoError` is the
result of `_take_photo` (camera collaborator); on success the frame file is
written (overwriting an existing same-named file).  If post-processing
completes and the estimated black ratio is strictly greater than the
threshold, the frame is unlinked, a "Discarded image" entry is logged, and —
because `error` is still `None` — the capture error is cleared and the
capture timestamp updated; a ratio equal to the threshold or an unknown
ratio keeps the frame.  A post-processing exception records a capture error
and leaves the captured frame in place. -/
def captureFrame (st : TLState) (now : Int) (photoError : Option String)
    (post : PostResult) : TLState :=
  let frameName := "image_" ++ fmtTS now ++ ".jpg"
  match photoError with
  | some e =>
    { st with
        lastCaptureError := some e
        logs := st.logs ++ ["Timelapse capture error: " ++ e] }
  | none =>
    let withFrame :=
      if st.frames.contains frameName then st.frames else st.frames ++ [frameName]
    match post with
    | .failed m =>
      let e := "post-processing failed: " ++ m
      { st with
          frames := withFrame
          lastCaptureError := some e
          logs := st.logs ++ ["Timelapse capture error: " ++ e] }
    | .ok ratio =>
      let keep : TLState :=
        { st with
            frames := withFrame
            lastCaptureError := none
            lastCaptureTimestamp := some now
            logs := st.logs ++ ["Captured timelapse image " ++ frameName] }
      match ratio with
      | some r =>
        if st.blackDetectionThreshold < r then
          { st with
              frames := withFrame.filter (fun f => !(f == frameName))
              lastCaptureError := none
              lastCaptureTimestamp := some now
              logs := st.logs ++
                [discardMsg frameName r st.blackDetectionThreshold] }
        else keep
      | none => keep

/-- Outcome of the external merge collaborator (`merge_videos` in
ffmpeg.py): success, or a raised failure with a message. -/
inductive MergeOutcome where
  | ok
  | failed (message : String)
deriving DecidableEq, Repr

/-- The sorted snapshot of `*.mp4` files taken by `trigger_merge_videos`
(timelapse.py line 344). -/
def mergeSources (st : TLState) : List String :=
  sortByName (st.videos.filter isMp4GlobMatch)

/-- The output name `merged_<firstStem>_<lastStem>.mp4` computed by
`trigger_merge_videos` (timelapse.py lines 348-350). -/
def mergedName (st : TLState) : String :=
  "merged_" ++ pathStem ((mergeSources st).headD "") ++ "_" ++
    pathStem ((mergeSources st).getLastD "") ++ ".mp4"

/-- `trigger_merge_videos` (timelapse.py lines 342-369): with fewer than two
`*.mp4` files, reject with the fixed message and touch nothing.  Otherwise
invoke the merge collaborator; on failure record and log the error and
delete nothing; on success the collaborator has renamed the merged output
onto `merged_<firstStem>_<lastStem>.mp4` (replacing a same-named file if
present), after which every file of the snapshot — including the output
itself, should its name coincide with a source — is unlinked. -/
def triggerMergeVideos (st : TLState) (outcome : MergeOutcome) :
    TLState × Bool × String :=
  let videos := mergeSources st
  if videos.length < 2 then
    (st, false, "Need at least 2 videos to merge.")
  else
    let outputName := mergedName st
    match outcome with
    | .failed msg =>
      ({ st with
          lastEncodeError := some msg
          logs := st.logs ++ ["Merge failed: " ++ msg] }, false, msg)
    | .ok =>
      let afterWrite :=
        if st.videos.contains outputName then st.videos
        else st.videos ++ [outputName]
      ({ st with
          videos := afterWrite.filter (fun v => !(videos.contains v))
          lastEncodeError := none
          logs := st.logs ++
            ["Merged " ++ toString videos.length ++ " videos into " ++
              outputName] },
        true,
        "Merged " ++ toString videos.length ++ " videos into " ++
          outputName ++ ".")

/-! ## Supporting lemmas -/

theorem contains_eq_true_iff (l : List String) (a : String) :
    l.contains a = true ↔ a ∈ l := by
  simp [List.contains]

theorem mem_insertSorted {a x : String} {l : List String} :
    a ∈ insertSorted x l ↔ a = x ∨ a ∈ l := by
  induction l with
  | nil => simp [insertSorted]
  | cons b t ih =>
    simp only [insertSorted]
    split
    · simp
    · simp only [List.mem_cons, ih]
      tauto

theorem mem_sortByName {a : String} {l : List String} :
    a ∈ sortByName l ↔ a ∈ l := by
  induction l with
  | nil => simp [sortByName]
  | cons b t ih =>
    show a ∈ insertSorted b (sortByName t) ↔ _
    rw [mem_insertSorted, ih]
    simp

theorem length_insertSorted (x : String) (l : List String) :
    (insertSorted x l).length = l.length + 1 := by
  induction l with
  | nil => rfl
  | cons b t ih =>
    simp only [insertSorted]
    split
    · simp
    · simp [ih]

theorem length_sortByName (l : List String) :
    (sortByName l).length = l.length := by
  induction l with
  | nil => rfl
  | cons b t ih =>
    show (insertSorted b (sortByName t)).length = _
    rw [length_insertSorted, ih]
    rfl

theorem sortByName_eq_nil_iff {l : List String} :
    sortByName l = [] ↔ l = [] := by
  constructor
  · intro h
    have := length_sortByName l
    rw [h] at this
    exact List.length_eq_zero.mp this.symm
  · rintro rfl
    rfl

theorem isPrefixOf_append_left {l m : List Char} (r : List Char)
    (h : l.isPrefixOf m = true) : l.isPrefixOf (m ++ r) = true := by
  induction l generalizing m with
  | nil => simp [List.isPrefixOf]
  | cons a as ih =>
    cases m with
    | nil => simp [List.isPrefixOf] at h
    | cons b bs =>
      simp only [List.isPrefixOf, List.cons_append, Bool.and_eq_true] at h ⊢
      exact ⟨h.1, ih h.2⟩

theorem isSuffixOf_append_right (l r : List Char) :
    l.isSuffixOf (r ++ l) = true := by
  simp [List.isSuffixOf]

/-- After deleting from a store every file of its own collected snapshot,
a re-scan collects nothing: every glob-matching store entry was in the
snapshot. -/
theorem collectedImages_purge (frames : List String) :
    collectedImages
      (frames.filter (fun f => !((collectedImages frames).contains f))) = [] := by
  unfold collectedImages
  rw [sortByName_eq_nil_iff, List.filter_filter, List.filter_eq_nil_iff]
  intro f hf
  have hmem : f ∈ frames.filter isFrameGlobMatch → f ∈ sortByName (frames.filter isFrameGlobMatch) :=
    fun h => mem_sortByName.mpr h
  simp only [Bool.and_eq_true, Bool.not_eq_true', not_and]
  intro hglob
  rw [Bool.not_eq_false]
  exact (contains_eq_true_iff _ _).mpr (hmem (List.mem_filter.mpr ⟨hf, hglob⟩))

/-! ## Concrete states used by witnesses -/

/-- A plain service state used to instantiate theorems on concrete inputs. -/
def baseState : TLState :=
  { frames := []
    videos := []
    sessionStart := 0
    nextCaptureDue := 60
    captureIntervalSeconds := 60
    rotationDegrees := 90
    sessionImageCount := 3
    blackDetectionThreshold := 9 / 10
    lastCaptureTimestamp := none
    lastCaptureError := none
    lastEncodeError := none
    savedConfig := none
    logs := [] }

/-! ## Claims -/

/-- C5: `update_runtime_config` accepts every rotation in `{0, 90, 180, 270}`
when the black percentage is in range and persistence succeeds, coercing
interval and session count to at least 1 rather than rejecting them; for a
rotation outside that set or a black percentage outside `[0, 100]` it
returns `(False, message)` with the entire state — the four configuration
fields, `next_capture_due`, and the persisted configuration — unchanged
(validation runs before any assignment, and the save runs after). -/
theorem claim_C5_config_validation (st : TLState) (now s r c : Int) (p : ℚ)
    (saveError : Option String) :
    ((r = 0 ∨ r = 90 ∨ r = 180 ∨ r = 270) → 0 ≤ p → p ≤ 100 →
      saveError = none →
      (updateRuntimeConfig st now s r c p saveError).2.1 = true ∧
      (updateRuntimeConfig st now s r c p saveError).1.captureIntervalSeconds =
        max 1 s ∧
      (updateRuntimeConfig st now s r c p saveError).1.sessionImageCount =
        max 1 c ∧
      (updateRuntimeConfig st now s r c p saveError).1.rotationDegrees = r ∧
      (updateRuntimeConfig st now s r c p saveError).1.blackDetectionThreshold =
        p / 100) ∧
    ((¬(r = 0 ∨ r = 90 ∨ r = 180 ∨ r = 270) ∨ p < 0 ∨ 100 < p) →
      ∃ msg, updateRuntimeConfig st now s r c p saveError = (st, false, msg)) := by
  constructor
  · rintro hr hp0 hp1 rfl
    have hpn : ¬(p < 0 ∨ 100 < p) := by
      push_neg
      exact ⟨hp0, hp1⟩
    simp [updateRuntimeConfig, applyRuntimeConfig, normalizeRotationDegrees,
      normalizeBlackPercentage, if_pos hr, if_neg hpn]
  · intro h
    by_cases hr : r = 0 ∨ r = 90 ∨ r = 180 ∨ r = 270
    · have hp : p < 0 ∨ 100 < p := by tauto
      refine ⟨"Black detection percentage must be between 0 and 100.", ?_⟩
      simp [updateRuntimeConfig, applyRuntimeConfig, normalizeRotationDegrees,
        normalizeBlackPercentage, if_pos hr, if_pos hp]
    · refine ⟨"Rotation must be one of: 0, 90, 180, 270.", ?_⟩
      simp [updateRuntimeConfig, applyRuntimeConfig, normalizeRotationDegrees,
        if_neg hr]

/-- Witness for C5: rotation 270 with interval 0 and count 0 (both coerced
to 1) is accepted; rotation 45 is rejected with the state unchanged. -/
theorem claim_C5_witness :
    ((updateRuntimeConfig baseState 0 0 270 0 100 none).2.1 = true ∧
      (updateRuntimeConfig baseState 0 0 270 0 100 none).1.captureIntervalSeconds =
        max 1 0 ∧
      (updateRuntimeConfig baseState 0 0 270 0 100 none).1.sessionImageCount =
        max 1 0 ∧
      (updateRuntimeConfig baseState 0 0 270 0 100 none).1.rotationDegrees = 270 ∧
      (updateRuntimeConfig baseState 0 0 270 0 100 none).1.blackDetectionThreshold =
        100 / 100) ∧
    (∃ msg, updateRuntimeConfig baseState 0 10 45 5 50 none =
      (baseState, false, msg)) :=
  ⟨(claim_C5_config_validation baseState 0 0 270 0 100 none).1
      (by decide) (by decide) (by decide) rfl,
    (claim_C5_config_validation baseState 0 10 45 5 50 none).2
      (by decide)⟩

/-- C10: when all four fields validate but persisting the configuration
raises, `update_runtime_config` returns
`(False, "Failed to save config: ...")` while the in-memory fields and
`next_capture_due` already hold the new values; the failed update is not
rolled back (and the previously persisted record is untouched). -/
theorem claim_C10_save_failure (st : TLState) (now s r c : Int) (p : ℚ)
    (e : String) (hr : r = 0 ∨ r = 90 ∨ r = 180 ∨ r = 270)
    (hp0 : 0 ≤ p) (hp1 : p ≤ 100) :
    (updateRuntimeConfig st now s r c p (some e)).2.1 = false ∧
    (updateRuntimeConfig st now s r c p (some e)).2.2 =
      "Failed to save config: " ++ e ∧
    (updateRuntimeConfig st now s r c p (some e)).1.captureIntervalSeconds =
      max 1 s ∧
    (updateRuntimeConfig st now s r c p (some e)).1.rotationDegrees = r ∧
    (updateRuntimeConfig st now s r c p (some e)).1.sessionImageCount =
      max 1 c ∧
    (updateRuntimeConfig st now s r c p (some e)).1.blackDetectionThreshold =
      p / 100 ∧
    (updateRuntimeConfig st now s r c p (some e)).1.nextCaptureDue =
      now + max 1 s ∧
    (updateRuntimeConfig st now s r c p (some e)).1.savedConfig =
      st.savedConfig := by
  have hpn : ¬(p < 0 ∨ 100 < p) := by
    push_neg
    exact ⟨hp0, hp1⟩
  simp [updateRuntimeConfig, applyRuntimeConfig, normalizeRotationDegrees,
    normalizeBlackPercentage, if_pos hr, if_neg hpn]

/-- Witness for C10: a save failure after a fully valid update reports the
failure yet leaves the new values applied in memory. -/
theorem claim_C10_witness :
    (updateRuntimeConfig baseState 0 30 180 4 100 (some "disk full")).2.1 =
      false ∧
    (updateRuntimeConfig baseState 0 30 180 4 100 (some "disk full")).2.2 =
      "Failed to save config: " ++ "disk full" ∧
    (updateRuntimeConfig baseState 0 30 180 4 100
        (some "disk full")).1.captureIntervalSeconds = max 1 30 ∧
    (updateRuntimeConfig baseState 0 30 180 4 100
        (some "disk full")).1.rotationDegrees = 180 ∧
    (updateRuntimeConfig baseState 0 30 180 4 100
        (some "disk full")).1.sessionImageCount = max 1 4 ∧
    (updateRuntimeConfig baseState 0 30 180 4 100
        (some "disk full")).1.blackDetectionThreshold = 100 / 100 ∧
    (updateRuntimeConfig baseState 0 30 180 4 100
        (some "disk full")).1.nextCaptureDue = 0 + max 1 30 ∧
    (updateRuntimeConfig baseState 0 30 180 4 100
        (some "disk full")).1.savedConfig = baseState.savedConfig :=
  claim_C10_save_failure baseState 0 30 180 4 100 "disk full"
    (by decide) (by decide) (by decide)

/-- C9: every name accepted by `get_image_path` / `get_video_path` matches
the strict allow-list pattern and contains no `/`, `\` or `..` substring,
and the resolved path is the store directory joined with that name (so it
cannot escape the directory); a name failing validation raises `ValueError`
while a validated but absent name raises the distinct `FileNotFoundError`. -/
theorem claim_C9_path_safety (frames videos : List String) (name p : String) :
    (getImagePath frames name = .ok p →
      validateImageName name = true ∧
      pyMatchAllowList ".jpg" name = true ∧
      containsSub "/" name = false ∧
      containsSub "\\" name = false ∧
      containsSub ".." name = false ∧
      p = "images/" ++ name) ∧
    (getVideoPath videos name = .ok p →
      validateVideoName name = true ∧
      pyMatchAllowList ".mp4" name = true ∧
      containsSub "/" name = false ∧
      containsSub "\\" name = false ∧
      containsSub ".." name = false ∧
      p = "videos/" ++ name) ∧
    (validateImageName name = false →
      getImagePath frames name = .error .invalidName) ∧
    (validateImageName name = true → name ∉ frames →
      getImagePath frames name = .error (.notFound name)) ∧
    (validateVideoName name = false →
      getVideoPath videos name = .error .invalidName) ∧
    (validateVideoName name = true → name ∉ videos →
      getVideoPath videos name = .error (.notFound name)) ∧
    (NameError.invalidName ≠ NameError.notFound name) := by
  refine ⟨?_, ?_, ?_, ?_, ?_, ?_, by simp⟩
  · intro h
    unfold getImagePath at h
    by_cases hv : validateImageName name = true
    · rw [if_pos hv] at h
      have hcomp := hv
      unfold validateImageName at hcomp
      simp only [Bool.and_eq_true, Bool.not_eq_true'] at hcomp
      by_cases hm : name ∈ frames
      · rw [if_pos hm] at h
        exact ⟨hv, hcomp.1.1.1, hcomp.1.2, hcomp.2, hcomp.1.1.2,
          (Except.ok.injEq _ _).mp h.symm⟩
      · rw [if_neg hm] at h
        cases h
    · rw [if_neg hv] at h
      cases h
  · intro h
    unfold getVideoPath at h
    by_cases hv : validateVideoName name = true
    · rw [if_pos hv] at h
      have hcomp := hv
      unfold validateVideoName at hcomp
      simp only [Bool.and_eq_true, Bool.not_eq_true'] at hcomp
      by_cases hm : name ∈ videos
      · rw [if_pos hm] at h
        exact ⟨hv, hcomp.1.1.1, hcomp.1.2, hcomp.2, hcomp.1.1.2,
          (Except.ok.injEq _ _).mp h.symm⟩
      · rw [if_neg hm] at h
        cases h
    · rw [if_neg hv] at h
      cases h
  · intro hv
    unfold getImagePath
    rw [if_neg (by simp [hv])]
  · intro hv hm
    unfold getImagePath
    rw [if_pos hv, if_neg hm]
  · intro hv
    unfold getVideoPath
    rw [if_neg (by simp [hv])]
  · intro hv hm
    unfold getVideoPath
    rw [if_pos hv, if_neg hm]

/-- Witness for C9: a well-formed existing name resolves inside the frames
directory; a traversal name is rejected as invalid; a well-formed missing
name raises not-found. -/
theorem claim_C9_witness :
    (validateImageName "image_1.jpg" = true ∧
      pyMatchAllowList ".jpg" "image_1.jpg" = true ∧
      containsSub "/" "image_1.jpg" = false ∧
      containsSub "\\" "image_1.jpg" = false ∧
      containsSub ".." "image_1.jpg" = false ∧
      "images/image_1.jpg" = "images/" ++ "image_1.jpg") ∧
    getImagePath ["image_1.jpg"] "../secret.jpg" = .error .invalidName ∧
    getImagePath ["image_1.jpg"] "image_2.jpg" = .error (.notFound "image_2.jpg") :=
  ⟨(claim_C9_path_safety ["image_1.jpg"] [] "image_1.jpg"
      "images/image_1.jpg").1 (by rfl),
    (claim_C9_path_safety ["image_1.jpg"] [] "../secret.jpg" "").2.2.1
      (by decide),
    (claim_C9_path_safety ["image_1.jpg"] [] "image_2.jpg" "").2.2.2.1
      (by decide) (by decide)⟩

/-- C8 counterexample: with an empty reported encoder set, the configured
codec `libx264` is not in the set, yet `_resolve_codec` returns `libx264`
itself — no fallback codec is "used instead" (in particular the result is
not the universal fallback `mpeg4`). -/
theorem claim_C8_counterexample :
    resolveCodec "libx264" (.ok []) = "libx264" ∧
    "libx264" ∉ ([] : List String) ∧
    resolveCodec "libx264" (.ok []) ≠ "mpeg4" := by
  refine ⟨by decide, by simp, by decide⟩

/-- C8 amended: the configured codec is used whenever the encoder
collaborator reports it available; when it is unavailable, the fallback
`mpeg4` is used only if `mpeg4` itself is reported available; otherwise —
including when listing encoders raises, which is treated as the empty set —
the configured codec is passed through unchanged. -/
theorem claim_C8_amended (codec : String)
    (listResult : Except String (List String)) :
    (∀ enc, listResult = .ok enc → codec ∈ enc →
      resolveCodec codec listResult = codec) ∧
    (∀ enc, listResult = .ok enc → codec ∉ enc → "mpeg4" ∈ enc →
      resolveCodec codec listResult = "mpeg4") ∧
    (∀ enc, listResult = .ok enc → codec ∉ enc → "mpeg4" ∉ enc →
      resolveCodec codec listResult = codec) ∧
    (∀ e, listResult = .error e → resolveCodec codec listResult = codec) := by
  refine ⟨?_, ?_, ?_, ?_⟩
  · rintro enc rfl hmem
    unfold resolveCodec
    rw [if_pos ((contains_eq_true_iff enc codec).mpr hmem)]
  · rintro enc rfl hnot hfb
    unfold resolveCodec
    rw [if_neg (by rw [contains_eq_true_iff]; exact hnot),
      if_pos ((contains_eq_true_iff enc "mpeg4").mpr hfb)]
  · rintro enc rfl hnot hfb
    unfold resolveCodec
    rw [if_neg (by rw [contains_eq_true_iff]; exact hnot),
      if_neg (by rw [contains_eq_true_iff]; exact hfb)]
  · rintro e rfl
    rfl

/-- Witness for C8 amended: an available configured codec is kept; an
unavailable one falls back to an available `mpeg4`. -/
theorem claim_C8_witness :
    resolveCodec "libx264" (.ok ["libx264", "mpeg4"]) = "libx264" ∧
    resolveCodec "libx265" (.ok ["libx264", "mpeg4"]) = "mpeg4" :=
  ⟨(claim_C8_amended "libx264" (.ok ["libx264", "mpeg4"])).1 _ rfl (by decide),
    (claim_C8_amended "libx265" (.ok ["libx264", "mpeg4"])).2.1 _ rfl
      (by decide) (by decide)⟩

theorem mem_insertFrame (l : List String) (a : String) :
    a ∈ (if l.contains a then l else l ++ [a]) := by
  by_cases hc : l.contains a = true
  · rw [if_pos hc]
    exact (contains_eq_true_iff _ _).mp hc
  · rw [if_neg hc]
    simp

theorem strStartsWith_discardMsg (fn : String) (r t : ℚ) :
    strStartsWith "Discarded image" (discardMsg fn r t) = true := by
  simp only [discardMsg, strStartsWith, String.data_append, List.append_assoc]
  exact isPrefixOf_append_left _ (by decide)

/-- C2: for a capture whose photo succeeds and whose post-processing
completes, a measured black ratio exactly equal to the threshold keeps the
frame (only strictly greater discards), as does an unknown ratio; a ratio
strictly above the threshold deletes the frame, records a log entry
starting with "Discarded image", and sets no capture error (the capture
error is cleared and the capture timestamp updated exactly as for a kept
frame). -/
theorem claim_C2_black_ratio_threshold (st : TLState) (now : Int) (r : ℚ) :
    (r = st.blackDetectionThreshold →
      ("image_" ++ fmtTS now ++ ".jpg") ∈
        (captureFrame st now none (.ok (some r))).frames ∧
      (captureFrame st now none (.ok (some r))).lastCaptureError = none ∧
      (captureFrame st now none (.ok (some r))).logs =
        st.logs ++
          ["Captured timelapse image " ++ ("image_" ++ fmtTS now ++ ".jpg")]) ∧
    (("image_" ++ fmtTS now ++ ".jpg") ∈
        (captureFrame st now none (.ok none)).frames ∧
      (captureFrame st now none (.ok none)).lastCaptureError = none) ∧
    (st.blackDetectionThreshold < r →
      ("image_" ++ fmtTS now ++ ".jpg") ∉
        (captureFrame st now none (.ok (some r))).frames ∧
      (captureFrame st now none (.ok (some r))).lastCaptureError = none ∧
      (captureFrame st now none (.ok (some r))).lastCaptureTimestamp =
        some now ∧
      (captureFrame st now none (.ok (some r))).logs =
        st.logs ++
          [discardMsg ("image_" ++ fmtTS now ++ ".jpg") r
            st.blackDetectionThreshold] ∧
      strStartsWith "Discarded image"
        (discardMsg ("image_" ++ fmtTS now ++ ".jpg") r
          st.blackDetectionThreshold) = true) := by
  refine ⟨?_, ?_, ?_⟩
  · rintro rfl
    have hlt : ¬ st.blackDetectionThreshold < st.blackDetectionThreshold :=
      lt_irrefl _
    refine ⟨?_, ?_, ?_⟩
    · simp only [captureFrame, if_neg hlt]
      exact mem_insertFrame _ _
    · simp [captureFrame, if_neg hlt]
    · simp [captureFrame, if_neg hlt]
  · refine ⟨?_, ?_⟩
    · simp only [captureFrame]
      exact mem_insertFrame _ _
    · simp [captureFrame]
  · intro hlt
    refine ⟨?_, ?_, ?_, ?_, strStartsWith_discardMsg _ _ _⟩
    · intro hmem
      simp only [captureFrame, if_pos hlt] at hmem
      rcases List.mem_filter.mp hmem with ⟨-, hpred⟩
      simp at hpred
    · simp [captureFrame, if_pos hlt]
    · simp [captureFrame, if_pos hlt]
    · simp [captureFrame, if_pos hlt]

/-- Witness for C2: with threshold 9/10 (the default 90%), a ratio of
exactly 9/10 keeps the frame, and a ratio of 95/100 discards it with a
"Discarded image" log entry and no capture error. -/
theorem claim_C2_witness :
    (("image_" ++ fmtTS 7 ++ ".jpg") ∈
        (captureFrame baseState 7 none
          (.ok (some baseState.blackDetectionThreshold))).frames ∧
      (captureFrame baseState 7 none
        (.ok (some baseState.blackDetectionThreshold))).lastCaptureError =
        none ∧
      (captureFrame baseState 7 none
        (.ok (some baseState.blackDetectionThreshold))).logs =
        baseState.logs ++
          ["Captured timelapse image " ++ ("image_" ++ fmtTS 7 ++ ".jpg")]) ∧
    (("image_" ++ fmtTS 7 ++ ".jpg") ∉
        (captureFrame baseState 7 none (.ok (some (95 / 100)))).frames ∧
      (captureFrame baseState 7 none
        (.ok (some (95 / 100)))).lastCaptureError = none ∧
      (captureFrame baseState 7 none (.ok (some (95 / 100)))).lastCaptureTimestamp =
        some 7 ∧
      (captureFrame baseState 7 none (.ok (some (95 / 100)))).logs =
        baseState.logs ++
          [discardMsg ("image_" ++ fmtTS 7 ++ ".jpg") (95 / 100)
            baseState.blackDetectionThreshold] ∧
      strStartsWith "Discarded image"
        (discardMsg ("image_" ++ fmtTS 7 ++ ".jpg") (95 / 100)
          baseState.blackDetectionThreshold) = true) :=
  ⟨(claim_C2_black_ratio_threshold baseState 7
      baseState.blackDetectionThreshold).1 rfl,
    (claim_C2_black_ratio_threshold baseState 7 (95 / 100)).2.2
      (by norm_num [baseState])⟩

/-- C3: whenever the encode collaborator fails — raising on a process
failure, or because the produced artifact is smaller than the 256-byte
plausibility minimum even though the tool exited successfully —
`_encode_session` returns `(False, message)`, records the message as the
last encode error, deletes no frame from the Frame Store (the store keeps
every pre-existing frame plus whatever arrived during the encode), creates
no artifact, and leaves `session_start` unchanged.  The final conjunct
pins down the implausibly-small case of the collaborator itself. -/
theorem claim_C3_encode_failure (st : TLState) (now : Int)
    (added : List String) (outcome : EncodeOutcome) (msg : String)
    (hne : collectedImages st.frames ≠ [])
    (herr : encodeTimelapse outcome = .error msg) :
    encodeSession st now outcome added =
      ({ st with
          frames := st.frames ++ added
          lastEncodeError := some msg
          logs := st.logs ++ ["Encode failed: " ++ msg] }, false, msg) ∧
    (encodeSession st now outcome added).1.sessionStart = st.sessionStart ∧
    (encodeSession st now outcome added).1.videos = st.videos ∧
    (∀ f ∈ st.frames, f ∈ (encodeSession st now outcome added).1.frames) ∧
    (∀ size : Nat, size < 256 →
      encodeTimelapse (.produced size) =
        .error ("Generated video file is too small (" ++ toString size ++
          " bytes). Conversion likely failed; check ffmpeg output and captured frames.")) := by
  have hmain : encodeSession st now outcome added =
      ({ st with
          frames := st.frames ++ added
          lastEncodeError := some msg
          logs := st.logs ++ ["Encode failed: " ++ msg] }, false, msg) := by
    unfold encodeSession
    rw [if_neg hne, herr]
  refine ⟨hmain, ?_, ?_, ?_, ?_⟩
  · rw [hmain]
  · rw [hmain]
  · intro f hf
    rw [hmain]
    exact List.mem_append_left _ hf
  · intro size hsize
    simp only [encodeTimelapse, if_pos hsize]

/-- Witness for C3: with one collected frame, a 0-byte output (tool exited
successfully) is rejected with the too-small message recorded and the frame
left in place together with a frame captured during the encode. -/
theorem claim_C3_witness :
    encodeSession { baseState with frames := ["image_1.jpg"] } 9
        (.produced 0) ["image_2.jpg"] =
      ({ { baseState with frames := ["image_1.jpg"] } with
          frames := ["image_1.jpg"] ++ ["image_2.jpg"]
          lastEncodeError := some ("Generated video file is too small (" ++
            toString (0 : Nat) ++
            " bytes). Conversion likely failed; check ffmpeg output and captured frames.")
          logs := { baseState with frames := ["image_1.jpg"] }.logs ++
            ["Encode failed: " ++ ("Generated video file is too small (" ++
              toString (0 : Nat) ++
              " bytes). Conversion likely failed; check ffmpeg output and captured frames.")] },
        false,
        "Generated video file is too small (" ++ toString (0 : Nat) ++
          " bytes). Conversion likely failed; check ffmpeg output and captured frames.") :=
  (claim_C3_encode_failure { baseState with frames := ["image_1.jpg"] } 9
    ["image_2.jpg"] (.produced 0) _ (by decide) rfl).1

/-- C4: when `_encode_session` succeeds, it deletes exactly the frames of
the snapshot taken at entry — a store entry survives precisely when it is
not in the snapshot, so every frame added during the encode and not in the
snapshot is preserved for the next session — and it appends exactly one new
artifact named from `(session_start, now)`, advances `session_start` to the
encode's end time, and clears the last encode error. -/
theorem claim_C4_encode_success (st : TLState) (now : Int) (size : Nat)
    (added : List String) (hne : collectedImages st.frames ≠ [])
    (hsz : 256 ≤ size) :
    (encodeSession st now (.produced size) added).2.1 = true ∧
    (∀ f, f ∈ (encodeSession st now (.produced size) added).1.frames ↔
      ((f ∈ st.frames ∨ f ∈ added) ∧ f ∉ collectedImages st.frames)) ∧
    (∀ a ∈ added, a ∉ collectedImages st.frames →
      a ∈ (encodeSession st now (.produced size) added).1.frames) ∧
    (encodeSession st now (.produced size) added).1.sessionStart = now ∧
    (encodeSession st now (.produced size) added).1.lastEncodeError = none ∧
    (encodeSession st now (.produced size) added).1.videos =
      st.videos ++
        ["video_" ++ fmtTS st.sessionStart ++ "_" ++ fmtTS now ++ ".mp4"] := by
  have hok : encodeTimelapse (.produced size) = .ok () := by
    simp only [encodeTimelapse, if_neg (Nat.not_lt.mpr hsz)]
  have hmain : encodeSession st now (.produced size) added =
      ({ st with
          frames := (st.frames ++ added).filter
            (fun f => !((collectedImages st.frames).contains f))
          videos := st.videos ++
            ["video_" ++ fmtTS st.sessionStart ++ "_" ++ fmtTS now ++ ".mp4"]
          sessionStart := now
          lastEncodeError := none },
        true,
        "Converted " ++ toString (collectedImages st.frames).length ++
          " images into " ++
          ("video_" ++ fmtTS st.sessionStart ++ "_" ++ fmtTS now ++ ".mp4") ++
          ".") := by
    unfold encodeSession
    rw [if_neg hne, hok]
  have hmem : ∀ f, f ∈ (encodeSession st now (.produced size) added).1.frames ↔
      ((f ∈ st.frames ∨ f ∈ added) ∧ f ∉ collectedImages st.frames) := by
    intro f
    rw [hmain]
    show f ∈ (st.frames ++ added).filter
      (fun f => !((collectedImages st.frames).contains f)) ↔ _
    rw [List.mem_filter, List.mem_append]
    constructor
    · rintro ⟨hin, hpred⟩
      refine ⟨hin, fun hcol => ?_⟩
      rw [(contains_eq_true_iff _ _).mpr hcol] at hpred
      simp at hpred
    · rintro ⟨hin, hcol⟩
      refine ⟨hin, ?_⟩
      rw [Bool.not_eq_true']
      rw [← Bool.not_eq_true, contains_eq_true_iff]
      exact hcol
  refine ⟨by rw [hmain], hmem, ?_, by rw [hmain], by rw [hmain], by rw [hmain]⟩
  intro a ha hcol
  exact (hmem a).mpr ⟨Or.inr ha, hcol⟩

/-- Witness for C4: encoding two collected frames while a third arrives
mid-encode deletes exactly the two snapshotted frames, keeps the new one,
appends one artifact, advances the session start and clears the error. -/
theorem claim_C4_witness :
    (encodeSession { baseState with frames := ["image_1.jpg", "image_2.jpg"] }
        11 (.produced 4096) ["image_3.jpg"]).2.1 = true ∧
    ("image_3.jpg" ∈
      (encodeSession { baseState with frames := ["image_1.jpg", "image_2.jpg"] }
        11 (.produced 4096) ["image_3.jpg"]).1.frames) ∧
    (encodeSession { baseState with frames := ["image_1.jpg", "image_2.jpg"] }
        11 (.produced 4096) ["image_3.jpg"]).1.sessionStart = 11 ∧
    (encodeSession { baseState with frames := ["image_1.jpg", "image_2.jpg"] }
        11 (.produced 4096) ["image_3.jpg"]).1.lastEncodeError = none ∧
    (encodeSession { baseState with frames := ["image_1.jpg", "image_2.jpg"] }
        11 (.produced 4096) ["image_3.jpg"]).1.videos =
      baseState.videos ++
        ["video_" ++ fmtTS baseState.sessionStart ++ "_" ++ fmtTS 11 ++ ".mp4"] :=
  ⟨(claim_C4_encode_success _ 11 4096 ["image_3.jpg"] (by decide) (by decide)).1,
    (claim_C4_encode_success _ 11 4096 ["image_3.jpg"] (by decide)
        (by decide)).2.2.1 "image_3.jpg" (by decide) (by decide),
    (claim_C4_encode_success _ 11 4096 ["image_3.jpg"] (by decide)
      (by decide)).2.2.2.1,
    (claim_C4_encode_success _ 11 4096 ["image_3.jpg"] (by decide)
      (by decide)).2.2.2.2.1,
    (claim_C4_encode_success _ 11 4096 ["image_3.jpg"] (by decide)
      (by decide)).2.2.2.2.2⟩

/-- C1: with `session_image_count = N`, an iteration of the session-encode
polling loop that finds exactly N−1 frames in the Frame Store never invokes
an encode (and changes nothing); an iteration that finds N frames with a
successfully encoding collaborator fires exactly one encode, produces
exactly one new artifact, and leaves the Frame Store with 0 collected
frames. -/
theorem claim_C1_session_threshold (st : TLState) (now : Int) (size N : ℕ)
    (hN : st.sessionImageCount = (N : Int)) (hN1 : 1 ≤ N)
    (hsz : 256 ≤ size) :
    ((collectedImages st.frames).length = N - 1 →
      ∀ outcome added, sessionLoopIter st now outcome added = (st, 0)) ∧
    ((collectedImages st.frames).length = N →
      (sessionLoopIter st now (.produced size) []).2 = 1 ∧
      (sessionLoopIter st now (.produced size) []).1.videos =
        st.videos ++
          ["video_" ++ fmtTS st.sessionStart ++ "_" ++ fmtTS now ++ ".mp4"] ∧
      collectedImages (sessionLoopIter st now (.produced size) []).1.frames =
        []) := by
  constructor
  · intro hlen outcome added
    have hlt : ¬ (((collectedImages st.frames).length : Int) ≥
        st.sessionImageCount) := by
      rw [hlen, hN]
      omega
    unfold sessionLoopIter
    rw [if_neg hlt]
  · intro hlen
    have hge : ((collectedImages st.frames).length : Int) ≥
        st.sessionImageCount := by
      rw [hlen, hN]
    have hne : collectedImages st.frames ≠ [] := by
      intro h
      rw [h] at hlen
      simp at hlen
      omega
    have hok : encodeTimelapse (.produced size) = .ok () := by
      simp only [encodeTimelapse, if_neg (Nat.not_lt.mpr hsz)]
    have hmain : encodeSession st now (.produced size) [] =
        ({ st with
            frames := (st.frames ++ []).filter
              (fun f => !((collectedImages st.frames).contains f))
            videos := st.videos ++
              ["video_" ++ fmtTS st.sessionStart ++ "_" ++ fmtTS now ++ ".mp4"]
            sessionStart := now
            lastEncodeError := none },
          true,
          "Converted " ++ toString (collectedImages st.frames).length ++
            " images into " ++
            ("video_" ++ fmtTS st.sessionStart ++ "_" ++ fmtTS now ++ ".mp4") ++
            ".") := by
      unfold encodeSession
      rw [if_neg hne, hok]
    have hiter : sessionLoopIter st now (.produced size) [] =
        ({ st with
            frames := (st.frames ++ []).filter
              (fun f => !((collectedImages st.frames).contains f))
            videos := st.videos ++
              ["video_" ++ fmtTS st.sessionStart ++ "_" ++ fmtTS now ++ ".mp4"]
            sessionStart := now
            lastEncodeError := none }, 1) := by
      unfold sessionLoopIter
      rw [if_pos hge, hmain]
      rfl
    refine ⟨by rw [hiter], by rw [hiter], ?_⟩
    rw [hiter]
    show collectedImages ((st.frames ++ []).filter
      (fun f => !((collectedImages st.frames).contains f))) = []
    rw [List.append_nil]
    exact collectedImages_purge st.frames

/-- States used by the C1 witness. -/
def stBelowThreshold : TLState :=
  { baseState with frames := ["image_1.jpg"], sessionImageCount := 2 }

/-- States used by the C1 witness. -/
def stAtThreshold : TLState :=
  { baseState with frames := ["image_1.jpg", "image_2.jpg"], sessionImageCount := 2 }

/-- Witness for C1: with threshold 2, one collected frame does not fire;
two collected frames fire exactly once, appending one artifact and leaving
zero collected frames. -/
theorem claim_C1_witness :
    (sessionLoopIter stBelowThreshold 5 (.produced 4096) ["image_9.jpg"] =
      (stBelowThreshold, 0)) ∧
    (sessionLoopIter stAtThreshold 5 (.produced 4096) []).2 = 1 ∧
    (sessionLoopIter stAtThreshold 5 (.produced 4096) []).1.videos =
      baseState.videos ++
        ["video_" ++ fmtTS baseState.sessionStart ++ "_" ++ fmtTS 5 ++ ".mp4"] ∧
    collectedImages
      (sessionLoopIter stAtThreshold 5 (.produced 4096) []).1.frames = [] :=
  ⟨(claim_C1_session_threshold stBelowThreshold 5 4096 2 (by decide)
      (by decide) (by decide)).1 (by decide) _ _,
    (claim_C1_session_threshold stAtThreshold 5 4096 2 (by decide) (by decide)
      (by decide)).2 (by decide)⟩

theorem isSuffixOf_append_of {l m : List Char} (r : List Char)
    (h : l.isSuffixOf m = true) : l.isSuffixOf (r ++ m) = true := by
  simp only [List.isSuffixOf, List.reverse_append] at h ⊢
  exact isPrefixOf_append_left _ h

theorem strEndsWith_mp4 (x : String) :
    strEndsWith ".mp4" (x ++ ".mp4") = true := by
  simp only [strEndsWith, String.data_append]
  exact isSuffixOf_append_right _ _

theorem strStartsWith_dot_mergedName (st : TLState) :
    strStartsWith "." (mergedName st) = false := by
  have hm : ("merged_".data) = 'm' :: "erged_".data := rfl
  have hd : (".".data) = ['.'] := rfl
  simp only [mergedName, strStartsWith, String.data_append, List.append_assoc,
    hm, hd, List.cons_append]
  simp only [List.isPrefixOf]
  rw [(by decide : ('.' == 'm') = false), Bool.false_and]

theorem isMp4GlobMatch_mergedName (st : TLState) :
    isMp4GlobMatch (mergedName st) = true := by
  unfold isMp4GlobMatch
  rw [strStartsWith_dot_mergedName]
  rw [show mergedName st =
    ("merged_" ++ pathStem ((mergeSources st).headD "") ++ "_" ++
      pathStem ((mergeSources st).getLastD "")) ++ ".mp4" from rfl]
  rw [strEndsWith_mp4]
  rfl

theorem mem_videos_of_mem_mergeSources {st : TLState} {v : String}
    (h : v ∈ mergeSources st) : v ∈ st.videos := by
  rw [mergeSources, mem_sortByName, List.mem_filter] at h
  exact h.1

theorem mem_mergeSources_of_glob {st : TLState} {v : String}
    (hv : v ∈ st.videos) (hg : isMp4GlobMatch v = true) :
    v ∈ mergeSources st := by
  rw [mergeSources, mem_sortByName, List.mem_filter]
  exact ⟨hv, hg⟩

/-- The artifact store used by the C7 counterexample: the computed merge
output name `merged_a_z.mp4` coincides with an existing artifact name. -/
def cexMergeState : TLState :=
  { baseState with videos := ["a.mp4", "merged_a_z.mp4", "z.mp4"] }

/-- C7 counterexample: with artifacts `a.mp4`, `merged_a_z.mp4`, `z.mp4`
(at least 2 present), the merge succeeds and the output is named
`merged_a_z.mp4` — the name of an existing source — so the source-deletion
loop that runs after the merge also unlinks the freshly merged artifact:
afterwards zero artifacts survive, contradicting "exactly one merged
artifact survives". -/
theorem claim_C7_counterexample :
    (triggerMergeVideos cexMergeState .ok).2.1 = true ∧
    mergedName cexMergeState ∈ cexMergeState.videos ∧
    (triggerMergeVideos cexMergeState .ok).1.videos = [] := by
  refine ⟨by decide, by decide, by decide⟩

/-- C7 amended: with fewer than 2 artifacts, `trigger_merge_videos` rejects
with the fixed message and creates nothing; with at least 2, it names the
output `merged_<firstStem>_<lastStem>.mp4` from the name-ordered sources and
deletes the sources only after the merge collaborator succeeds (a failure
deletes nothing), so that — provided the computed output name is not itself
one of the existing artifact names — exactly one `*.mp4` artifact survives
(the merged one) and zero originals remain; when the output name coincides
with a source, the deletion loop removes the merged artifact as well. -/
theorem claim_C7_merge (st : TLState) :
    ((mergeSources st).length < 2 →
      ∀ outcome, triggerMergeVideos st outcome =
        (st, false, "Need at least 2 videos to merge.")) ∧
    (2 ≤ (mergeSources st).length →
      (∀ msg, (triggerMergeVideos st (.failed msg)).1.videos = st.videos ∧
        (triggerMergeVideos st (.failed msg)).2.1 = false ∧
        (triggerMergeVideos st (.failed msg)).2.2 = msg) ∧
      (mergedName st ∉ st.videos →
        (triggerMergeVideos st .ok).2.1 = true ∧
        (triggerMergeVideos st .ok).1.videos.filter isMp4GlobMatch =
          [mergedName st] ∧
        (∀ v ∈ mergeSources st, v ∉ (triggerMergeVideos st .ok).1.videos))) := by
  constructor
  · intro hlt outcome
    simp only [triggerMergeVideos, if_pos hlt]
  · intro hge
    have hnlt : ¬ (mergeSources st).length < 2 := Nat.not_lt.mpr hge
    constructor
    · intro msg
      simp [triggerMergeVideos, if_neg hnlt]
    · intro hout
      have hcontains : st.videos.contains (mergedName st) = false := by
        rw [← Bool.not_eq_true, contains_eq_true_iff]
        exact hout
      have hvideos : (triggerMergeVideos st .ok).1.videos =
          (st.videos ++ [mergedName st]).filter
            (fun v => !((mergeSources st).contains v)) := by
        simp only [triggerMergeVideos, if_neg hnlt]
        rw [if_neg (by rw [hcontains]; exact Bool.false_ne_true)]
      have hpred_out : (!((mergeSources st).contains (mergedName st))) = true := by
        rw [Bool.not_eq_true']
        rw [← Bool.not_eq_true, contains_eq_true_iff]
        intro hmem
        exact hout (mem_videos_of_mem_mergeSources hmem)
      refine ⟨by simp only [triggerMergeVideos, if_neg hnlt], ?_, ?_⟩
      · rw [hvideos, List.filter_filter, List.filter_append]
        have h1 : st.videos.filter
            (fun a => isMp4GlobMatch a && !((mergeSources st).contains a)) =
            [] := by
          rw [List.filter_eq_nil_iff]
          intro v hv
          simp only [Bool.and_eq_true, Bool.not_eq_true', not_and]
          intro hg
          rw [Bool.not_eq_false]
          exact (contains_eq_true_iff _ _).mpr (mem_mergeSources_of_glob hv hg)
        have h2 : ([mergedName st]).filter
            (fun a => isMp4GlobMatch a && !((mergeSources st).contains a)) =
            [mergedName st] := by
          have hc : (isMp4GlobMatch (mergedName st) &&
              !((mergeSources st).contains (mergedName st))) = true := by
            rw [isMp4GlobMatch_mergedName, hpred_out]
            rfl
          rw [List.filter_singleton, hc]
          rfl
        rw [h1, h2, List.nil_append]
      · intro v hv hmem
        rw [hvideos, List.mem_filter] at hmem
        have := hmem.2
        rw [Bool.not_eq_true', ← Bool.not_eq_true, contains_eq_true_iff] at this
        exact this hv

/-- The artifact store used by the C7 witness: two session artifacts. -/
def stTwoVideos : TLState :=
  { baseState with videos := ["video_1_2.mp4", "video_3_4.mp4"] }

/-- Witness for C7: merging two artifacts succeeds, leaves exactly the one
merged artifact named from the first and last stems, and removes both
originals; a single artifact is rejected with the fixed message. -/
theorem claim_C7_witness :
    ((triggerMergeVideos stTwoVideos .ok).2.1 = true ∧
      (triggerMergeVideos stTwoVideos .ok).1.videos.filter isMp4GlobMatch =
        [mergedName stTwoVideos] ∧
      (∀ v ∈ mergeSources stTwoVideos,
        v ∉ (triggerMergeVideos stTwoVideos .ok).1.videos)) ∧
    triggerMergeVideos { baseState with videos := ["video_1_2.mp4"] } .ok =
      ({ baseState with videos := ["video_1_2.mp4"] }, false,
        "Need at least 2 videos to merge.") :=
  ⟨(claim_C7_merge stTwoVideos).2 (by decide) |>.2 (by decide),
    (claim_C7_merge { baseState with videos := ["video_1_2.mp4"] }).1
      (by decide) .ok⟩

theorem roundHalfEven_intCast (z : ℤ) : roundHalfEven (z : ℚ) = z := by
  simp only [roundHalfEven, Int.floor_intCast, sub_self]
  rw [if_pos (by norm_num : (0:ℚ) < 1/2)]

theorem roundHalfEven_nonneg {q : ℚ} (h : 0 ≤ q) : 0 ≤ roundHalfEven q := by
  have hf : 0 ≤ ⌊q⌋ := Int.floor_nonneg.mpr h
  simp only [roundHalfEven]
  split_ifs <;> omega

theorem roundHalfEven_le {q : ℚ} {B : ℤ} (h : q ≤ (B:ℚ)) :
    roundHalfEven q ≤ B := by
  have hfl : ⌊q⌋ ≤ B := by
    have := Int.floor_le_floor h
    rwa [Int.floor_intCast] at this
  have hfq : (⌊q⌋ : ℚ) ≤ q := Int.floor_le q
  simp only [roundHalfEven]
  split_ifs with h1 h2 h3
  · exact hfl
  · have hq : (⌊q⌋:ℚ) < (B:ℚ) := by linarith
    have := Int.cast_lt.mp hq
    omega
  · exact hfl
  · have heq : q - ⌊q⌋ = 1/2 := le_antisymm (not_lt.mp h2) (not_lt.mp h1)
    have hq : (⌊q⌋:ℚ) < (B:ℚ) := by linarith
    have := Int.cast_lt.mp hq
    omega

theorem round2_nonneg {p : ℚ} (h : 0 ≤ p) : 0 ≤ round2 p := by
  unfold round2
  apply div_nonneg _ (by norm_num)
  exact_mod_cast roundHalfEven_nonneg (mul_nonneg h (by norm_num))

theorem round2_le_100 {p : ℚ} (h : p ≤ 100) : round2 p ≤ 100 := by
  unfold round2
  rw [div_le_iff₀ (by norm_num : (0:ℚ) < 100)]
  have hb : p * 100 ≤ ((10000:ℤ):ℚ) := by push_cast; linarith
  have h2 := roundHalfEven_le hb
  calc ((roundHalfEven (p*100) : ℚ)) ≤ ((10000:ℤ):ℚ) := by exact_mod_cast h2
    _ = 100 * 100 := by norm_num

theorem round2_eq_self {p : ℚ} (hden : (p * 100).den = 1) : round2 p = p := by
  have hnum : ((p * 100).num : ℚ) = p * 100 := by
    conv_rhs => rw [← Rat.num_div_den (p * 100)]
    rw [hden]
    simp
  unfold round2
  rw [← hnum, roundHalfEven_intCast, hnum, mul_div_assoc]
  norm_num

/-- C6 counterexample: the valid quadruple (interval 10, rotation 90, count
5, black percentage 0.001) is accepted by `update_runtime_config`, but the
persisted record stores the percentage as `round(threshold*100, 2) = 0`, so
the fresh service constructed from the persisted record reads back a black
percentage of 0, not the 0.001 that was passed: the round-trip does not
yield the same four values. -/
theorem claim_C6_counterexample :
    (updateRuntimeConfig baseState 0 10 90 5 (1/1000) none).2.1 = true ∧
    ∃ fresh,
      initService 0 60 3 90 90
          ((updateRuntimeConfig baseState 0 10 90 5 (1/1000) none).1.savedConfig) =
        .ok fresh ∧
      configValues fresh = (10, 90, 5, 0) ∧
      (0 : ℚ) ≠ 1/1000 := by
  constructor
  · norm_num [updateRuntimeConfig, applyRuntimeConfig,
      normalizeRotationDegrees, normalizeBlackPercentage]
  · have hsaved : (updateRuntimeConfig baseState 0 10 90 5 (1/1000)
        none).1.savedConfig = some ⟨10, 90, 5, 0⟩ := by
      norm_num [updateRuntimeConfig, applyRuntimeConfig,
        normalizeRotationDegrees, normalizeBlackPercentage,
        runtimeConfigDict, round2, roundHalfEven]
    rw [hsaved]
    norm_num [initService, normalizeRotationDegrees,
      normalizeBlackPercentage, loadRuntimeConfig, applyRuntimeConfig,
      configValues]

/-- C6 amended: for every valid quadruple, a successful
`update_runtime_config` followed by a fresh construction (with any valid
constructor defaults) reading the persisted record yields the same interval,
rotation and session count, and a black-detection percentage equal to the
original rounded half-even to two decimal places — equal to the original
exactly when the original percentage is an integer multiple of 0.01. -/
theorem claim_C6_round_trip (st : TLState) (now now2 s r c di dc dr : Int)
    (p dp : ℚ)
    (hs : 1 ≤ s) (hc : 1 ≤ c) (hr : r = 0 ∨ r = 90 ∨ r = 180 ∨ r = 270)
    (hp0 : 0 ≤ p) (hp1 : p ≤ 100)
    (hdr : dr = 0 ∨ dr = 90 ∨ dr = 180 ∨ dr = 270)
    (hdp0 : 0 ≤ dp) (hdp1 : dp ≤ 100) :
    ∃ fresh,
      initService now2 di dc dr dp
          ((updateRuntimeConfig st now s r c p none).1.savedConfig) =
        .ok fresh ∧
      configValues fresh = (s, r, c, round2 p) ∧
      ((p * 100).den = 1 → round2 p = p) := by
  have hmax_s : max 1 s = s := max_eq_right hs
  have hmax_c : max 1 c = c := max_eq_right hc
  have hpn : ¬(p < 0 ∨ 100 < p) := by push_neg; exact ⟨hp0, hp1⟩
  have hdpn : ¬(dp < 0 ∨ 100 < dp) := by push_neg; exact ⟨hdp0, hdp1⟩
  have hrpn : ¬(round2 p < 0 ∨ 100 < round2 p) := by
    push_neg
    exact ⟨round2_nonneg hp0, round2_le_100 hp1⟩
  have hp100 : p / 100 * 100 = p := div_mul_cancel₀ p (by norm_num)
  have hsaved : (updateRuntimeConfig st now s r c p none).1.savedConfig =
      some ⟨s, r, c, round2 p⟩ := by
    simp only [updateRuntimeConfig, applyRuntimeConfig,
      normalizeRotationDegrees, normalizeBlackPercentage, if_pos hr,
      if_neg hpn, runtimeConfigDict]
    rw [hmax_s, hmax_c, hp100]
  rw [hsaved]
  simp only [initService, normalizeRotationDegrees, normalizeBlackPercentage,
    if_pos hdr, if_neg hdpn, loadRuntimeConfig, applyRuntimeConfig,
    if_pos hr, if_neg hrpn]
  refine ⟨_, rfl, ?_, fun hden => round2_eq_self hden⟩
  simp only [configValues]
  rw [hmax_s, hmax_c]
  have : round2 p / 100 * 100 = round2 p := div_mul_cancel₀ _ (by norm_num)
  rw [this]

/-- Witness for C6 amended: updating to (10, 90, 5, 25%) and reconstructing
from the persisted record reads back exactly (10, 90, 5, 25%), since 25 is
a multiple of 0.01. -/
theorem claim_C6_witness :
    ∃ fresh,
      initService 0 60 3 90 90
          ((updateRuntimeConfig baseState 0 10 90 5 25 none).1.savedConfig) =
        .ok fresh ∧
      configValues fresh = (10, 90, 5, round2 25) ∧
      (((25:ℚ) * 100).den = 1 → round2 25 = 25) :=
  claim_C6_round_trip baseState 0 0 10 90 5 60 3 90 25 90
    (by decide) (by decide) (by decide) (by decide) (by decide)
    (by decide) (by decide) (by decide)

end PlantCamera
